import Mathlib

/-!
# waku-operator: the Node reconciler

A shallow embedding of `controllers/node_controller.go`: the translation of a
`Node` resource into a Pod (`podFromNode`) and a Service (`serviceFromNode`),
and the reconciliation pass (`Reconcile`) over a client interface.

Everything the controller reaches through a library is a parameter of the
model: the object-store client (`Client`), the multiaddr parser, the HTTP
round trip and the JSON codec (`Env`).  Every client and network call a
function issues is recorded in a list of `Call`s, so that statements about
which calls a pass makes can be stated.  A Go run-time panic is an explicit
`Except.error` outcome.
-/

set_option linter.dupNamespace false

namespace WakuOperator

/-! ## Data model -/

/-- Object identity used by the client: `types.NamespacedName`. -/
structure NamespacedName where
  Namespace : String
  Name : String
  deriving DecidableEq, Repr

/-- The part of `metav1.ObjectMeta` that the controller reads or writes. -/
structure ObjectMeta where
  Name : String
  Namespace : String
  Labels : List (String × String)
  deriving DecidableEq, Repr

/-- Modelled from the spec: the discovery sub-record of the Node resource
(`api/v1alpha1` is not among the sources); the field names are the ones the
controller reads. -/
structure Discv5 where
  Discovery : Bool
  EnrAutoUpdate : Bool
  BootstrapNode : String
  UdpPort : Int
  deriving DecidableEq, Repr

/-- Modelled from the spec: the `Spec` of the Node resource (`api/v1alpha1` is
not among the sources); the field names are the ones the controller reads. -/
structure NodeSpec where
  Image : String
  Metrics : Bool
  Discv5 : Discv5
  Protocols : List String
  StaticNode : String
  deriving DecidableEq, Repr

/-- Modelled from the spec: the Node resource `wakuv1alpha1.Node`
(`api/v1alpha1` is not among the sources). -/
structure Node where
  ObjectMeta : ObjectMeta
  Spec : NodeSpec
  deriving DecidableEq, Repr

/-- The `v1.ContainerPort` fields set by the controller. -/
structure ContainerPort where
  Name : String
  ContainerPort : Int
  deriving DecidableEq, Repr

/-- The `v1.Container` fields set by the controller. -/
structure Container where
  Name : String
  Image : String
  Args : List String
  Ports : List ContainerPort
  deriving DecidableEq, Repr

/-- The `v1.PodSpec` fields set by the controller. -/
structure PodSpec where
  Containers : List Container
  deriving DecidableEq, Repr

/-- The `v1.Pod` object. -/
structure Pod where
  ObjectMeta : ObjectMeta
  Spec : PodSpec
  deriving DecidableEq, Repr

/-- The `v1.ServicePort` fields set by the controller. -/
structure ServicePort where
  Name : String
  Port : Int
  deriving DecidableEq, Repr

/-- The `v1.ServiceSpec` fields the controller sets or reads. -/
structure ServiceSpec where
  Selector : List (String × String)
  Ports : List ServicePort
  ClusterIP : String
  deriving DecidableEq, Repr

/-- The `v1.Service` object. -/
structure Service where
  ObjectMeta : ObjectMeta
  Spec : ServiceSpec
  deriving DecidableEq, Repr

/-- The reply of the info call, `rpc.InfoReply` of go-waku. -/
structure InfoReply where
  ENRUri : String
  ListenAddresses : List String
  deriving DecidableEq, Repr

/-- The promoted field `node.Name`. -/
def Node.Name (node : Node) : String := node.ObjectMeta.Name

/-- The promoted field `node.Namespace`. -/
def Node.Namespace (node : Node) : String := node.ObjectMeta.Namespace

/-- The identity under which the store files a Node. -/
def Node.key (node : Node) : NamespacedName :=
  { Namespace := node.ObjectMeta.Namespace, Name := node.ObjectMeta.Name }

/-- The identity under which the store files a Pod. -/
def Pod.key (pod : Pod) : NamespacedName :=
  { Namespace := pod.ObjectMeta.Namespace, Name := pod.ObjectMeta.Name }

/-- The identity under which the store files a Service. -/
def Service.key (srv : Service) : NamespacedName :=
  { Namespace := srv.ObjectMeta.Namespace, Name := srv.ObjectMeta.Name }

/-! ## Errors, panics and the record of calls -/

/-- The error outcomes of a client call, as far as the controller tells them
apart (`errors.IsNotFound`); a conflict on create is `alreadyExists`. -/
inductive ClientErr where
  | notFound
  | alreadyExists
  | other (msg : String)
  deriving DecidableEq, Repr

/-- The test `errors.IsNotFound(err)`. -/
def ClientErr.IsNotFound : ClientErr → Bool
  | .notFound => true
  | _ => false

/-- A Go run-time panic. -/
inductive Panic where
  | indexOutOfRange (index length : Nat)
  deriving DecidableEq, Repr

/-- One call to the client or to the network. -/
inductive Call where
  | getNode (key : NamespacedName)
  | getPod (key : NamespacedName)
  | getService (key : NamespacedName)
  | createPod (obj : Option Pod)
  | createService (obj : Service)
  | httpPost (url contentType body : String)
  deriving DecidableEq, Repr

/-- A call that asks the store to create an object. -/
def Call.isCreate : Call → Bool
  | .createPod _ => true
  | .createService _ => true
  | _ => false

/-- A call that reads from the store. -/
def Call.isFetch : Call → Bool
  | .getNode _ => true
  | .getPod _ => true
  | .getService _ => true
  | _ => false

/-- A call that goes out to the network. -/
def Call.isHttp : Call → Bool
  | .httpPost _ _ _ => true
  | _ => false

/-! ## The collaborators -/

/-- The embedded `client.Client`, over a store state `σ`: `Get` for the three
kinds of object and `Create` for Pods and Services.  `Create` receives the
pointer the controller passes, which may be nil for a Pod. -/
structure Client (σ : Type) where
  getNode : σ → NamespacedName → Except ClientErr Node
  getPod : σ → NamespacedName → Except ClientErr Pod
  getService : σ → NamespacedName → Except ClientErr Service
  createPod : σ → Option Pod → Option ClientErr × σ
  createService : σ → Service → Option ClientErr × σ

/-- What `http.Post` hands back on success: a body whose read
(`ioutil.ReadAll`) succeeds with the bytes or fails. -/
structure Response where
  Body : Except String String

/-- The library calls of `podFromNode`: `ma.NewMultiaddr` (true when the
string parses), `json.Marshal` of `rpc.InfoArgs`, `http.Post`, and
`json.Unmarshal` into `rpc.InfoReply`. -/
structure Env where
  NewMultiaddr : String → Bool
  marshalInfoArgs : Except String String
  httpPost : String → String → String → Except String Response
  unmarshalInfoReply : String → Except String InfoReply

/-! ## serviceFromNode and podFromNode -/

/-- Translation of `serviceFromNode`. -/
def serviceFromNode (node : Node) : Service :=
  { ObjectMeta := { Name := node.Name, Namespace := node.Namespace, Labels := [] },
    Spec :=
      { Selector := [("app", "wakunode"), ("node", node.Name)],
        Ports := [{ Name := "libp2p", Port := 60000 }, { Name := "rpc", Port := 8545 }],
        ClusterIP := "" } }

/-- One round of the loop over `node.Spec.Protocols`: the `switch` on the tag. -/
def protocolStep (command : List String) (p : String) : List String :=
  if p = "relay" then command ++ ["--relay=true"]
  else if p = "store" then command ++ ["--store=true"]
  else if p = "lightpush" then command ++ ["--lightpush=true"]
  else command

/-- The argument list `podFromNode` has built when it reaches the test on
`node.Spec.StaticNode` (source lines 144 to 179). -/
def commandBeforeStatic (node : Node) : List String :=
  let command : List String := []
  let command := command ++ ["--rpc=true", "--rpc-address=0.0.0.0"]
  let command := command ++ ["--dns4-domain-name=" ++ node.Name]
  let command :=
    if node.Spec.Metrics then
      command ++ ["--metrics-server=True", "--metrics-server-address=0.0.0.0"]
    else command
  let command :=
    if node.Spec.Discv5.Discovery then command ++ ["--discv5-discovery=true"] else command
  let command :=
    if node.Spec.Discv5.EnrAutoUpdate then command ++ ["--discv5-enr-auto-update=True"]
    else command
  let command :=
    if node.Spec.Discv5.BootstrapNode.utf8ByteSize > 0 then
      command ++ ["--discv5-bootstrap-node=" ++ node.Spec.Discv5.BootstrapNode]
    else command
  let command :=
    if node.Spec.Discv5.UdpPort ≠ 0 then
      command ++ ["--discv5-udp-port=" ++ toString node.Spec.Discv5.UdpPort]
    else command
  node.Spec.Protocols.foldl protocolStep command

/-- The Pod literal at the end of `podFromNode` (source lines 226 to 256). -/
def podWithArgs (node : Node) (command : List String) : Pod :=
  { ObjectMeta :=
      { Name := node.Name, Namespace := node.Namespace,
        Labels := [("app", "wakunode"), ("node", node.Name)] },
    Spec :=
      { Containers :=
          [{ Name := "wakunode", Image := node.Spec.Image, Args := command,
             Ports := [{ Name := "rpc", ContainerPort := 8548 },
                       { Name := "libp2p", ContainerPort := 60000 }] }] } }

/-- Translation of `podFromNode`.  The first component is the returned
pointer (`none` is nil) or the panic that ends the call; the second is the
list of client and network calls made, in order. -/
def podFromNode {σ : Type} (r : Client σ) (env : Env) (s : σ) (node : Node) :
    Except Panic (Option Pod) × List Call :=
  let command := commandBeforeStatic node
  if node.Spec.StaticNode.utf8ByteSize ≠ 0 then
    let m := node.Spec.StaticNode
    if env.NewMultiaddr node.Spec.StaticNode then
      (.ok (some (podWithArgs node (command ++ ["--staticnode=%s", m]))), [])
    else
      let key : NamespacedName :=
        { Name := node.Spec.StaticNode, Namespace := node.Namespace }
      match r.getService s key with
      | .error _ => (.ok none, [Call.getService key])
      | .ok srv =>
        let ip := srv.Spec.ClusterIP
        let port : Int := 8545
        match env.marshalInfoArgs with
        | .error _ => (.ok none, [Call.getService key])
        | .ok data =>
          let url := "http://" ++ ip ++ ":" ++ toString port
          match env.httpPost url "application/json" data with
          | .error _ =>
            (.ok none, [Call.getService key, Call.httpPost url "application/json" data])
          | .ok resp =>
            match resp.Body with
            | .error _ =>
              (.ok none, [Call.getService key, Call.httpPost url "application/json" data])
            | .ok body =>
              match env.unmarshalInfoReply body with
              | .error _ =>
                (.ok none, [Call.getService key, Call.httpPost url "application/json" data])
              | .ok reply =>
                match reply.ListenAddresses with
                | [] =>
                  (.error (Panic.indexOutOfRange 0 0),
                    [Call.getService key, Call.httpPost url "application/json" data])
                | m :: _ =>
                  (.ok (some (podWithArgs node (command ++ ["--staticnode=%s", m]))),
                    [Call.getService key, Call.httpPost url "application/json" data])
  else
    (.ok (some (podWithArgs node command)), [])

/-! ## Reconcile -/

/-- The `ctrl.Result` fields the controller sets. -/
structure Result where
  Requeue : Bool
  deriving DecidableEq, Repr

/-- What one call of `Reconcile` leaves behind: the returned pair
`(ctrl.Result, error)` or the panic that ended the pass, the store state after
the pass, and the client and network calls made, in order. -/
structure Pass (σ : Type) where
  ret : Except Panic (Result × Option ClientErr)
  state : σ
  calls : List Call

/-- Translation of `Reconcile`. -/
def Reconcile {σ : Type} (r : Client σ) (env : Env) (s : σ) (req : NamespacedName) :
    Pass σ :=
  match r.getNode s req with
  | .error err =>
    if err.IsNotFound then
      { ret := .ok ({ Requeue := false }, none), state := s, calls := [Call.getNode req] }
    else
      { ret := .ok ({ Requeue := false }, some err), state := s, calls := [Call.getNode req] }
  | .ok node =>
    let key : NamespacedName := { Name := node.Name, Namespace := node.Namespace }
    match r.getPod s key with
    | .error err =>
      if err.IsNotFound then
        match podFromNode r env s node with
        | (.error p, cs) =>
          { ret := .error p, state := s, calls := [Call.getNode req, Call.getPod key] ++ cs }
        | (.ok pod, cs) =>
          match r.createPod s pod with
          | (some err, s1) =>
            { ret := .ok ({ Requeue := false }, some err), state := s1,
              calls := [Call.getNode req, Call.getPod key] ++ cs ++ [Call.createPod pod] }
          | (none, s1) =>
            { ret := .ok ({ Requeue := true }, none), state := s1,
              calls := [Call.getNode req, Call.getPod key] ++ cs ++ [Call.createPod pod] }
      else
        { ret := .ok ({ Requeue := false }, some err), state := s,
          calls := [Call.getNode req, Call.getPod key] }
    | .ok _ =>
      match r.getService s key with
      | .error err =>
        if err.IsNotFound then
          let service := serviceFromNode node
          match r.createService s service with
          | (some err, s1) =>
            { ret := .ok ({ Requeue := false }, some err), state := s1,
              calls := [Call.getNode req, Call.getPod key, Call.getService key,
                        Call.createService service] }
          | (none, s1) =>
            { ret := .ok ({ Requeue := true }, none), state := s1,
              calls := [Call.getNode req, Call.getPod key, Call.getService key,
                        Call.createService service] }
        else
          { ret := .ok ({ Requeue := false }, some err), state := s,
            calls := [Call.getNode req, Call.getPod key, Call.getService key] }
      | .ok _ =>
        { ret := .ok ({ Requeue := false }, none), state := s,
          calls := [Call.getNode req, Call.getPod key, Call.getService key] }

/-- The three outcomes of a pass named by the specification. -/
inductive Outcome where
  | noop
  | requeue
  | requeueWithError (err : ClientErr)
  deriving DecidableEq, Repr

/-- Reading of a returned pair `(ctrl.Result, error)` by the dispatcher: an
error means requeue-with-error whatever the result says. -/
def outcomeOf : Result × Option ClientErr → Outcome
  | (_, some err) => .requeueWithError err
  | (res, none) => if res.Requeue then .requeue else .noop

/-! ## An explicit object store -/

/-- The external object store behind the client, made explicit: the lists of
the Nodes, Pods and Services it holds.  A get returns the first object filed
under the identity or not-found; a create adds the object at the end, or
answers with a conflict when the identity is taken. -/
structure Store where
  nodes : List Node
  pods : List Pod
  services : List Service
  deriving DecidableEq, Repr

/-- Get-by-identity of a Node. -/
def Store.getNode (s : Store) (key : NamespacedName) : Except ClientErr Node :=
  match s.nodes.find? (fun n => decide (n.key = key)) with
  | some n => .ok n
  | none => .error .notFound

/-- Get-by-identity of a Pod. -/
def Store.getPod (s : Store) (key : NamespacedName) : Except ClientErr Pod :=
  match s.pods.find? (fun p => decide (p.key = key)) with
  | some p => .ok p
  | none => .error .notFound

/-- Get-by-identity of a Service. -/
def Store.getService (s : Store) (key : NamespacedName) : Except ClientErr Service :=
  match s.services.find? (fun p => decide (p.key = key)) with
  | some p => .ok p
  | none => .error .notFound

/-- Create of a Pod: a nil object is refused, an identity already present is
a conflict, otherwise the object is added. -/
def Store.createPod (s : Store) : Option Pod → Option ClientErr × Store
  | none => (some (.other "nil object"), s)
  | some p =>
    if s.pods.any (fun q => decide (q.key = p.key)) then (some .alreadyExists, s)
    else (none, { s with pods := s.pods ++ [p] })

/-- Create of a Service: an identity already present is a conflict, otherwise
the object is added. -/
def Store.createService (s : Store) (srv : Service) : Option ClientErr × Store :=
  if s.services.any (fun q => decide (q.key = srv.key)) then (some .alreadyExists, s)
  else (none, { s with services := s.services ++ [srv] })

/-- The client whose calls read and write a `Store`. -/
def storeClient : Client Store :=
  { getNode := Store.getNode, getPod := Store.getPod, getService := Store.getService,
    createPod := Store.createPod, createService := Store.createService }

/-- The Pods the store holds under an identity. -/
def Store.podsAt (s : Store) (key : NamespacedName) : List Pod :=
  s.pods.filter (fun p => decide (p.key = key))

/-- The Services the store holds under an identity. -/
def Store.servicesAt (s : Store) (key : NamespacedName) : List Service :=
  s.services.filter (fun p => decide (p.key = key))

/-- The store after `n` successive passes for the same request. -/
def passes (env : Env) (req : NamespacedName) : Nat → Store → Store
  | 0, s => s
  | n + 1, s => passes env req n (Reconcile storeClient env s req).state

/-- The call does not ask for the creation of an object whose identity the
store already holds. -/
def Call.freshIn (s : Store) : Call → Bool
  | .createPod (some p) => (s.podsAt p.key).isEmpty
  | .createService srv => (s.servicesAt srv.key).isEmpty
  | _ => true

/-! ## Vocabulary of the statements -/

/-- The enable flag of a protocol tag, as the `switch` of `podFromNode` emits
it; `none` for a tag the `switch` has no case for. -/
def protocolFlag (p : String) : Option String :=
  if p = "relay" then some "--relay=true"
  else if p = "store" then some "--store=true"
  else if p = "lightpush" then some "--lightpush=true"
  else none

/-- The argument lists of the containers of a Pod, container by container. -/
def Pod.args (pod : Pod) : List (List String) :=
  pod.Spec.Containers.map Container.Args

/-- The same Node with another `Protocols` list. -/
def Node.withProtocols (node : Node) (ps : List String) : Node :=
  { node with Spec := { node.Spec with Protocols := ps } }

/-- The same Node with another `StaticNode`. -/
def Node.withStaticNode (node : Node) (m : String) : Node :=
  { node with Spec := { node.Spec with StaticNode := m } }

/-! ## Concrete inputs -/

/-- The Node of the end-to-end example of the specification. -/
def n1 : Node :=
  { ObjectMeta := { Name := "n1", Namespace := "default", Labels := [] },
    Spec :=
      { Image := "img:v1", Metrics := true,
        Discv5 :=
          { Discovery := true, EnrAutoUpdate := false, BootstrapNode := "", UdpPort := 9000 },
        Protocols := ["relay", "lightpush"], StaticNode := "" } }

/-- A Node with discovery off and no protocol tag, but metrics on. -/
def metricsNode : Node :=
  { ObjectMeta := { Name := "m1", Namespace := "default", Labels := [] },
    Spec :=
      { Image := "img:v1", Metrics := true,
        Discv5 :=
          { Discovery := false, EnrAutoUpdate := false, BootstrapNode := "", UdpPort := 0 },
        Protocols := [], StaticNode := "" } }

/-- A Node with every optional setting off. -/
def bareNode : Node :=
  { ObjectMeta := { Name := "b1", Namespace := "default", Labels := [] },
    Spec :=
      { Image := "img:v1", Metrics := false,
        Discv5 :=
          { Discovery := false, EnrAutoUpdate := false, BootstrapNode := "", UdpPort := 0 },
        Protocols := [], StaticNode := "" } }

/-- A Node whose static peer is given as a literal address. -/
def literalPeerNode : Node :=
  { ObjectMeta := { Name := "n2", Namespace := "default", Labels := [] },
    Spec :=
      { Image := "img:v1", Metrics := false,
        Discv5 :=
          { Discovery := false, EnrAutoUpdate := false, BootstrapNode := "", UdpPort := 0 },
        Protocols := ["relay"], StaticNode := "/ip4/10.0.0.7/tcp/60000" } }

/-- A Node whose static peer is given as the name of a sibling Service. -/
def namedPeerNode : Node :=
  { ObjectMeta := { Name := "n3", Namespace := "default", Labels := [] },
    Spec :=
      { Image := "img:v1", Metrics := false,
        Discv5 :=
          { Discovery := false, EnrAutoUpdate := false, BootstrapNode := "", UdpPort := 0 },
        Protocols := ["relay"], StaticNode := "peer" } }

/-- The sibling Service `peer`, with a cluster address. -/
def peerService : Service :=
  { ObjectMeta := { Name := "peer", Namespace := "default", Labels := [] },
    Spec :=
      { Selector := [("app", "wakunode"), ("node", "peer")],
        Ports := [{ Name := "libp2p", Port := 60000 }, { Name := "rpc", Port := 8545 }],
        ClusterIP := "10.0.0.7" } }

/-- A Pod filed under the identity of `n1` whose arguments are not the ones
`podFromNode` derives from `n1`. -/
def driftedPod : Pod := podWithArgs n1 ["--rpc=false"]

/-- A stand-in for the libraries: a string parses as a multiaddr when it
starts with a slash, the info request marshals to the empty JSON object, the
peer at `10.0.0.7` answers the info call with an empty address list and no
other host answers, and only that answer decodes. -/
def clusterEnv : Env :=
  { NewMultiaddr := fun m => decide (m.data.head? = some '/'),
    marshalInfoArgs := .ok "\x7b\x7d",
    httpPost := fun url _ _ =>
      if url = "http://10.0.0.7:8545" then
        .ok { Body := .ok "\x7b\"listenAddresses\": []\x7d" }
      else .error "connection refused",
    unmarshalInfoReply := fun body =>
      if body = "\x7b\"listenAddresses\": []\x7d" then .ok { ENRUri := "", ListenAddresses := [] }
      else .error "unexpected reply" }

/-- A store that holds one Node and nothing else. -/
def storeOf (node : Node) : Store :=
  { nodes := [node], pods := [], services := [] }

/-- A client whose Pod and Service reads lag behind the store: they report
not-found whatever the store holds, while creates go to the store. -/
def staleClient : Client Store :=
  { getNode := Store.getNode,
    getPod := fun _ _ => .error .notFound,
    getService := fun _ _ => .error .notFound,
    createPod := Store.createPod, createService := Store.createService }

/-! ## Lemmas on the argument list -/

/-- A string has byte length zero exactly when it is empty. -/
theorem utf8ByteSize_eq_zero_iff (s : String) : s.utf8ByteSize = 0 ↔ s = "" := by
  cases s with
  | mk cs =>
    simp only [String.utf8ByteSize_mk, String.utf8Len_eq_zero]
    constructor
    · intro h; rw [h]
    · intro h; exact congrArg String.data h

/-- The loop over the protocol tags appends the flags of the known tags, in
the order of the tags. -/
theorem foldl_protocolStep (ps : List String) (command : List String) :
    ps.foldl protocolStep command = command ++ ps.filterMap protocolFlag := by
  induction ps generalizing command with
  | nil => simp
  | cons p ps ih =>
    rw [List.foldl_cons, ih]
    unfold protocolStep protocolFlag
    by_cases h1 : p = "relay"
    · simp [h1]
    · by_cases h2 : p = "store"
      · simp [h2]
      · by_cases h3 : p = "lightpush"
        · simp [h3]
        · simp [h1, h2, h3]

/-- With an empty `StaticNode`, `podFromNode` makes no call and returns the Pod
carrying the arguments built so far. -/
theorem podFromNode_of_static_empty {σ : Type} (r : Client σ) (env : Env) (s : σ) (node : Node)
    (h : node.Spec.StaticNode = "") :
    podFromNode r env s node = (.ok (some (podWithArgs node (commandBeforeStatic node))), []) := by
  have h0 : node.Spec.StaticNode.utf8ByteSize = 0 := (utf8ByteSize_eq_zero_iff _).2 h
  unfold podFromNode
  simp only [h0, ne_eq, not_true_eq_false, if_false]

/-- On the three known tags the enable flag is the tag between two dashes and
the suffix `=true`. -/
theorem filterMap_protocolFlag_of_known (ps : List String)
    (h : ∀ p ∈ ps, p ∈ ["relay", "store", "lightpush"]) :
    ps.filterMap protocolFlag = ps.map (fun p => "--" ++ p ++ "=true") := by
  induction ps with
  | nil => rfl
  | cons p ps ih =>
    have hp : p ∈ ["relay", "store", "lightpush"] := h p (List.mem_cons_self p ps)
    have hps : ∀ q ∈ ps, q ∈ ["relay", "store", "lightpush"] :=
      fun q hq => h q (List.mem_cons_of_mem p hq)
    have hflag : protocolFlag p = some ("--" ++ p ++ "=true") := by
      simp only [List.mem_cons, List.mem_singleton, List.not_mem_nil, or_false] at hp
      rcases hp with rfl | rfl | rfl <;> decide
    rw [List.filterMap_cons, hflag, List.map_cons, ih hps]

/-- The test `len(...) > 0` holds exactly for a non-empty string. -/
theorem bootstrap_test_iff (b : String) : b.utf8ByteSize > 0 ↔ b ≠ "" := by
  rw [gt_iff_lt, Nat.pos_iff_ne_zero, ne_eq, utf8ByteSize_eq_zero_iff]

/-- The argument list before the static peer, as one concatenation. -/
theorem commandBeforeStatic_eq (node : Node) :
    commandBeforeStatic node =
      ["--rpc=true", "--rpc-address=0.0.0.0"] ++ ["--dns4-domain-name=" ++ node.Name]
        ++ (if node.Spec.Metrics = true then
              ["--metrics-server=True", "--metrics-server-address=0.0.0.0"] else [])
        ++ (if node.Spec.Discv5.Discovery = true then ["--discv5-discovery=true"] else [])
        ++ (if node.Spec.Discv5.EnrAutoUpdate = true then ["--discv5-enr-auto-update=True"]
            else [])
        ++ (if node.Spec.Discv5.BootstrapNode ≠ "" then
              ["--discv5-bootstrap-node=" ++ node.Spec.Discv5.BootstrapNode] else [])
        ++ (if node.Spec.Discv5.UdpPort ≠ 0 then
              ["--discv5-udp-port=" ++ toString node.Spec.Discv5.UdpPort] else [])
        ++ node.Spec.Protocols.filterMap protocolFlag := by
  unfold commandBeforeStatic
  simp only [foldl_protocolStep, bootstrap_test_iff]
  split_ifs <;> simp

/-- The protocol flags are the tail of the argument list before the static
peer; what precedes them does not depend on the tags. -/
theorem commandBeforeStatic_withProtocols (node : Node) (ps : List String) :
    commandBeforeStatic (node.withProtocols ps)
      = commandBeforeStatic (node.withProtocols []) ++ ps.filterMap protocolFlag := by
  rw [commandBeforeStatic_eq, commandBeforeStatic_eq (node.withProtocols [])]
  simp [Node.withProtocols, Node.Name]

/-- A Pod returned by `podFromNode` carries the arguments built before the
static peer followed by a tail that does not depend on the protocol tags, and
the call succeeds with the same tail for any other list of tags. -/
theorem podFromNode_withProtocols {σ : Type} (r : Client σ) (env : Env) (s : σ) (node : Node)
    (pod : Pod) (h : (podFromNode r env s node).1 = .ok (some pod)) :
    ∃ tail, pod = podWithArgs node (commandBeforeStatic node ++ tail) ∧
      ∀ ps, (podFromNode r env s (node.withProtocols ps)).1 =
        .ok (some (podWithArgs (node.withProtocols ps)
          (commandBeforeStatic (node.withProtocols ps) ++ tail))) := by
  unfold podFromNode at h
  simp only [Node.Namespace] at h
  split at h
  · split at h
    · simp only [Except.ok.injEq, Option.some.injEq] at h
      exact ⟨_, h.symm, fun ps => by
        simp only [podFromNode, Node.withProtocols, Node.Namespace]; simp [*]⟩
    · split at h
      · simp at h
      · split at h
        · simp at h
        · split at h
          · simp at h
          · split at h
            · simp at h
            · split at h
              · simp at h
              · split at h
                · simp at h
                · simp only [Except.ok.injEq, Option.some.injEq] at h
                  exact ⟨_, h.symm, fun ps => by
                    simp only [podFromNode, Node.withProtocols, Node.Namespace]; simp [*]⟩
  · simp only [Except.ok.injEq, Option.some.injEq] at h
    exact ⟨[], by rw [List.append_nil]; exact h.symm, fun ps => by
      simp only [podFromNode, Node.withProtocols, Node.Namespace]; simp [*]⟩

/-- A Pod returned by `podFromNode` is filed under the identity of the Node. -/
theorem podFromNode_key {σ : Type} (r : Client σ) (env : Env) (s : σ) (node : Node)
    (pod : Pod) (h : (podFromNode r env s node).1 = .ok (some pod)) : pod.key = node.key := by
  obtain ⟨tail, hpod, -⟩ := podFromNode_withProtocols r env s node pod h
  rw [hpod]; rfl

/-- No call that `podFromNode` makes is a create. -/
theorem podFromNode_calls_not_create {σ : Type} (r : Client σ) (env : Env) (s : σ)
    (node : Node) : ∀ c ∈ (podFromNode r env s node).2, c.isCreate = false := by
  unfold podFromNode
  simp only [Node.Namespace]
  repeat' split
  all_goals simp [Call.isCreate]

/-! ## Lemmas on the store and on one pass -/

/-- The store returns a Node of the identity asked for. -/
theorem Store.getNode_ok_key (s : Store) (req : NamespacedName) (node : Node)
    (h : s.getNode req = .ok node) : node.key = req := by
  unfold Store.getNode at h
  split at h
  · rename_i n hn
    have := List.find?_some hn
    simp only [Except.ok.injEq] at h
    subst h
    simpa using this
  · simp at h

/-- A failed get of a Pod is a not-found, and the store holds no Pod there. -/
theorem Store.getPod_error (s : Store) (key : NamespacedName) (err : ClientErr)
    (h : s.getPod key = .error err) : err = .notFound ∧ s.podsAt key = [] := by
  unfold Store.getPod at h
  split at h
  · simp at h
  · rename_i hn
    simp only [Except.error.injEq] at h
    refine ⟨h.symm, ?_⟩
    unfold Store.podsAt
    rw [List.filter_eq_nil_iff]
    simpa using hn

/-- A failed get of a Service is a not-found, and the store holds no Service
there. -/
theorem Store.getService_error (s : Store) (key : NamespacedName) (err : ClientErr)
    (h : s.getService key = .error err) : err = .notFound ∧ s.servicesAt key = [] := by
  unfold Store.getService at h
  split at h
  · simp at h
  · rename_i hn
    simp only [Except.error.injEq] at h
    refine ⟨h.symm, ?_⟩
    unfold Store.servicesAt
    rw [List.filter_eq_nil_iff]
    simpa using hn

/-- Create of a Pod under a free identity adds the Pod. -/
theorem Store.createPod_fresh (s : Store) (pod : Pod) (h : s.podsAt pod.key = []) :
    s.createPod (some pod) = (none, { s with pods := s.pods ++ [pod] }) := by
  unfold Store.podsAt at h
  rw [List.filter_eq_nil_iff] at h
  have hany : s.pods.any (fun q => decide (q.key = pod.key)) = false := by
    rw [List.any_eq_false]
    intro q hq
    simpa using h q hq
  simp only [Store.createPod, hany]
  rfl

/-- Create of a Service under a free identity adds the Service. -/
theorem Store.createService_fresh (s : Store) (srv : Service) (h : s.servicesAt srv.key = []) :
    s.createService srv = (none, { s with services := s.services ++ [srv] }) := by
  unfold Store.servicesAt at h
  rw [List.filter_eq_nil_iff] at h
  have hany : s.services.any (fun q => decide (q.key = srv.key)) = false := by
    rw [List.any_eq_false]
    intro q hq
    simpa using h q hq
  simp only [Store.createService, hany]
  rfl

/-- A call that is not a create is fresh in any store. -/
theorem Call.freshIn_of_not_create (s : Store) (c : Call) (h : c.isCreate = false) :
    c.freshIn s := by
  cases c <;> trivial

/-- The first match in a list without a match, extended by a match. -/
theorem find?_append_fresh {α : Type} (l : List α) (x : α) (f : α → Bool)
    (hl : l.filter f = []) (hx : f x = true) : (l ++ [x]).find? f = some x := by
  rw [List.filter_eq_nil_iff] at hl
  have : l.find? f = none := by
    rw [List.find?_eq_none]; exact hl
  rw [List.find?_append, this]
  simp [List.find?_cons, hx]

/-- A first match stays the first match when the list is extended. -/
theorem find?_append_found {α : Type} (l m : List α) (x : α) (f : α → Bool)
    (hl : l.find? f = some x) : (l ++ m).find? f = some x := by
  rw [List.find?_append, hl]; rfl

/-- A list without a match, extended by one element, has at most one match. -/
theorem length_filter_append_fresh {α : Type} (l : List α) (x : α) (f : α → Bool)
    (hl : l.filter f = []) : ((l ++ [x]).filter f).length ≤ 1 := by
  rw [List.filter_append, hl, List.nil_append]
  exact (List.length_filter_le f [x]).trans (by simp)

/-- Extending a list by an element that does not match adds no match. -/
theorem filter_append_other {α : Type} (l : List α) (x : α) (f : α → Bool)
    (hx : f x = false) : (l ++ [x]).filter f = l.filter f := by
  rw [List.filter_append]
  simp [List.filter_cons, hx]

/-- The pass that finds the Node and no Pod, and gets a Pod from
`podFromNode`: it creates that Pod and asks for a requeue. -/
theorem Reconcile_store_create_pod (env : Env) (s : Store) (req : NamespacedName) (node : Node)
    (pod : Pod) (cs : List Call)
    (hnode : s.getNode req = .ok node) (hget : s.podsAt req = [])
    (hpod : podFromNode storeClient env s node = (.ok (some pod), cs)) :
    Reconcile storeClient env s req =
      { ret := .ok ({ Requeue := true }, none),
        state := { s with pods := s.pods ++ [pod] },
        calls := [Call.getNode req, Call.getPod req] ++ cs ++ [Call.createPod (some pod)] } := by
  have hkey : node.key = req := Store.getNode_ok_key s req node hnode
  have hpk : pod.key = req := by
    rw [← hkey]; exact podFromNode_key storeClient env s node pod (by rw [hpod])
  have hfind : s.getPod req = .error .notFound := by
    unfold Store.podsAt at hget
    rw [List.filter_eq_nil_iff] at hget
    have : s.pods.find? (fun p => decide (p.key = req)) = none := by
      rw [List.find?_eq_none]; exact hget
    simp only [Store.getPod, this]
  have hcreate := Store.createPod_fresh s pod (by rw [hpk]; exact hget)
  have hk2 : ({ Name := node.Name, Namespace := node.Namespace } : NamespacedName) = req := hkey
  simp only [Reconcile, storeClient, hnode, hk2, hfind, ClientErr.IsNotFound, if_true]
  have hpod' : podFromNode storeClient env s node = (.ok (some pod), cs) := hpod
  simp only [storeClient] at hpod'
  rw [hpod']
  simp only [hcreate]

/-- The pass that finds the Node and a Pod but no Service: it creates the
Service of `serviceFromNode` and asks for a requeue. -/
theorem Reconcile_store_create_service (env : Env) (s : Store) (req : NamespacedName)
    (node : Node) (found : Pod)
    (hnode : s.getNode req = .ok node) (hpod : s.getPod req = .ok found)
    (hget : s.servicesAt req = []) :
    Reconcile storeClient env s req =
      { ret := .ok ({ Requeue := true }, none),
        state := { s with services := s.services ++ [serviceFromNode node] },
        calls := [Call.getNode req, Call.getPod req, Call.getService req,
                  Call.createService (serviceFromNode node)] } := by
  have hkey : node.key = req := Store.getNode_ok_key s req node hnode
  have hsk : (serviceFromNode node).key = req := hkey
  have hfind : s.getService req = .error .notFound := by
    unfold Store.servicesAt at hget
    rw [List.filter_eq_nil_iff] at hget
    have : s.services.find? (fun p => decide (p.key = req)) = none := by
      rw [List.find?_eq_none]; exact hget
    simp only [Store.getService, this]
  have hcreate := Store.createService_fresh s (serviceFromNode node) (by rw [hsk]; exact hget)
  have hk2 : ({ Name := node.Name, Namespace := node.Namespace } : NamespacedName) = req := hkey
  simp only [Reconcile, storeClient, hnode, hk2, hpod, hfind, ClientErr.IsNotFound, if_true,
    hcreate]

/-- The pass that finds the Node, a Pod and a Service: it does nothing. -/
theorem Reconcile_store_settled (env : Env) (s : Store) (req : NamespacedName)
    (node : Node) (found : Pod) (srv : Service)
    (hnode : s.getNode req = .ok node) (hpod : s.getPod req = .ok found)
    (hsrv : s.getService req = .ok srv) :
    Reconcile storeClient env s req =
      { ret := .ok ({ Requeue := false }, none), state := s,
        calls := [Call.getNode req, Call.getPod req, Call.getService req] } := by
  have hkey : node.key = req := Store.getNode_ok_key s req node hnode
  have hk2 : ({ Name := node.Name, Namespace := node.Namespace } : NamespacedName) = req := hkey
  simp only [Reconcile, storeClient, hnode, hk2, hpod, hsrv]

/-- What a pass over the store does to it: nothing, or it adds one Pod, or it
adds one Service, in both cases under the identity of the request and only
when the store holds nothing of that kind there. -/
theorem Reconcile_store_effect (env : Env) (s : Store) (req : NamespacedName) :
    ((Reconcile storeClient env s req).state = s ∧
      ∀ c ∈ (Reconcile storeClient env s req).calls, c.isCreate = true → c = Call.createPod none) ∨
    (∃ pod, s.podsAt req = [] ∧ pod.key = req ∧
      (Reconcile storeClient env s req).state = { s with pods := s.pods ++ [pod] } ∧
      ∀ c ∈ (Reconcile storeClient env s req).calls,
        c.isCreate = true → c = Call.createPod (some pod)) ∨
    (∃ srv, s.servicesAt req = [] ∧ srv.key = req ∧
      (Reconcile storeClient env s req).state = { s with services := s.services ++ [srv] } ∧
      ∀ c ∈ (Reconcile storeClient env s req).calls,
        c.isCreate = true → c = Call.createService srv) := by
  cases hnode : s.getNode req with
  | error err =>
    left
    simp only [Reconcile, storeClient, hnode]
    split <;> simp [Call.isCreate]
  | ok node =>
    have hkey : node.key = req := Store.getNode_ok_key s req node hnode
    have hk2 : ({ Name := node.Name, Namespace := node.Namespace } : NamespacedName) = req :=
      hkey
    cases hpod : s.getPod req with
    | error err =>
      obtain ⟨rfl, hnone⟩ := Store.getPod_error s req err hpod
      have hnc := podFromNode_calls_not_create storeClient env s node
      rcases hres : podFromNode storeClient env s node with ⟨res, cs⟩
      rw [hres] at hnc
      simp only at hnc
      cases res with
      | error p =>
        left
        simp only [storeClient] at hres
        simp only [Reconcile, storeClient, hnode, hk2, hpod, ClientErr.IsNotFound, if_true, hres,
          true_and]
        intro c hc hcr
        simp only [List.cons_append, List.nil_append, List.mem_cons] at hc
        rcases hc with rfl | rfl | hc
        · simp [Call.isCreate] at hcr
        · simp [Call.isCreate] at hcr
        · rw [hnc c hc] at hcr; simp at hcr
      | ok opt =>
        cases opt with
        | none =>
          left
          simp only [storeClient] at hres
          simp only [Reconcile, storeClient, hnode, hk2, hpod, ClientErr.IsNotFound, if_true,
            hres, Store.createPod, true_and]
          intro c hc hcr
          simp only [List.cons_append, List.nil_append, List.mem_cons, List.mem_append,
            List.mem_singleton, List.not_mem_nil, or_false] at hc
          rcases hc with rfl | rfl | hc | rfl
          · simp [Call.isCreate] at hcr
          · simp [Call.isCreate] at hcr
          · rw [hnc c hc] at hcr; simp at hcr
          · rfl
        | some pod =>
          right; left
          have hpk : pod.key = req := by
            rw [← hkey]; exact podFromNode_key storeClient env s node pod (by rw [hres])
          refine ⟨pod, hnone, hpk, ?_, ?_⟩
          · rw [Reconcile_store_create_pod env s req node pod cs hnode hnone hres]
          · rw [Reconcile_store_create_pod env s req node pod cs hnode hnone hres]
            intro c hc hcr
            simp only [List.cons_append, List.nil_append, List.mem_cons, List.mem_append,
              List.mem_singleton, List.not_mem_nil, or_false] at hc
            rcases hc with rfl | rfl | hc | rfl
            · simp [Call.isCreate] at hcr
            · simp [Call.isCreate] at hcr
            · rw [hnc c hc] at hcr; simp at hcr
            · rfl
    | ok found =>
      cases hsrv : s.getService req with
      | error err =>
        obtain ⟨rfl, hnone⟩ := Store.getService_error s req err hsrv
        right; right
        refine ⟨serviceFromNode node, hnone, hkey, ?_, ?_⟩
        · rw [Reconcile_store_create_service env s req node found hnode hpod hnone]
        · rw [Reconcile_store_create_service env s req node found hnode hpod hnone]
          intro c hc hcr
          simp only [List.mem_cons, List.mem_singleton, List.not_mem_nil, or_false] at hc
          rcases hc with rfl | rfl | rfl | rfl
          · simp [Call.isCreate] at hcr
          · simp [Call.isCreate] at hcr
          · simp [Call.isCreate] at hcr
          · rfl
      | ok srv =>
        left
        rw [Reconcile_store_settled env s req node found srv hnode hpod hsrv]
        simp [Call.isCreate]

/-- One pass keeps every identity that holds at most one Pod (Service) at
most one, and asks for no creation of an object whose identity is taken. -/
theorem Reconcile_pass_no_duplicate (env : Env) (s : Store) (req k : NamespacedName) :
    ((s.podsAt k).length ≤ 1 → ((Reconcile storeClient env s req).state.podsAt k).length ≤ 1) ∧
    ((s.servicesAt k).length ≤ 1 →
      ((Reconcile storeClient env s req).state.servicesAt k).length ≤ 1) ∧
    ∀ c ∈ (Reconcile storeClient env s req).calls, c.freshIn s := by
  rcases Reconcile_store_effect env s req with ⟨hst, hc⟩ | ⟨pod, hnone, hpk, hst, hc⟩ |
      ⟨srv, hnone, hsk, hst, hc⟩
  · rw [hst]
    refine ⟨id, id, fun c hmem => ?_⟩
    cases hcr : c.isCreate with
    | false => exact Call.freshIn_of_not_create s c hcr
    | true => rw [hc c hmem hcr]; trivial
  · rw [hst]
    refine ⟨fun h => ?_, id, fun c hmem => ?_⟩
    · by_cases hk : k = req
      · subst hk
        exact length_filter_append_fresh s.pods pod _ hnone
      · have : (fun p : Pod => decide (p.key = k)) pod = false := by
          simp only [decide_eq_false_iff_not]; rw [hpk]; exact fun h => hk h.symm
        show ((s.pods ++ [pod]).filter _).length ≤ 1
        rw [filter_append_other s.pods pod _ this]
        exact h
    · cases hcr : c.isCreate with
      | false => exact Call.freshIn_of_not_create s c hcr
      | true =>
        rw [hc c hmem hcr]
        show (s.podsAt pod.key).isEmpty = true
        rw [hpk, hnone]; rfl
  · rw [hst]
    refine ⟨id, fun h => ?_, fun c hmem => ?_⟩
    · by_cases hk : k = req
      · subst hk
        exact length_filter_append_fresh s.services srv _ hnone
      · have : (fun p : Service => decide (p.key = k)) srv = false := by
          simp only [decide_eq_false_iff_not]; rw [hsk]; exact fun h => hk h.symm
        show ((s.services ++ [srv]).filter _).length ≤ 1
        rw [filter_append_other s.services srv _ this]
        exact h
    · cases hcr : c.isCreate with
      | false => exact Call.freshIn_of_not_create s c hcr
      | true =>
        rw [hc c hmem hcr]
        show (s.servicesAt srv.key).isEmpty = true
        rw [hsk, hnone]; rfl

/-- A store that a pass leaves unchanged is left unchanged by any number of
passes. -/
theorem passes_settled (env : Env) (s : Store) (req : NamespacedName)
    (h : (Reconcile storeClient env s req).state = s) (n : Nat) : passes env req n s = s := by
  induction n with
  | zero => rfl
  | succ n ih => rw [passes, h, ih]

/-! ## The argument list of `podFromNode` -/

/-- Claim C1: for every Node with an empty `StaticNode` whose `Protocols` list
is a duplicate-free sub-sequence of relay, store, lightpush, `podFromNode`
returns a Pod, makes no call, and the argument list of the Pod is, in this
order: the two rpc flags, the domain-name flag carrying the Node name, the two
metrics flags if `Metrics`, the discovery flag if `Discv5.Discovery`, the
enr-auto-update flag if `Discv5.EnrAutoUpdate`, the bootstrap-node flag
carrying `Discv5.BootstrapNode` literally if that is non-empty, the udp-port
flag if `Discv5.UdpPort` is non-zero, then one enable flag per protocol tag. -/
theorem podFromNode_args_of_ordered_protocols {σ : Type} (r : Client σ) (env : Env) (s : σ)
    (node : Node) (hstatic : node.Spec.StaticNode = "")
    (hprot : node.Spec.Protocols.Sublist ["relay", "store", "lightpush"]) :
    ∃ pod, podFromNode r env s node = (.ok (some pod), []) ∧
      pod.args =
        [["--rpc=true", "--rpc-address=0.0.0.0"] ++ ["--dns4-domain-name=" ++ node.Name]
          ++ (if node.Spec.Metrics = true then
                ["--metrics-server=True", "--metrics-server-address=0.0.0.0"] else [])
          ++ (if node.Spec.Discv5.Discovery = true then ["--discv5-discovery=true"] else [])
          ++ (if node.Spec.Discv5.EnrAutoUpdate = true then ["--discv5-enr-auto-update=True"]
              else [])
          ++ (if node.Spec.Discv5.BootstrapNode ≠ "" then
                ["--discv5-bootstrap-node=" ++ node.Spec.Discv5.BootstrapNode] else [])
          ++ (if node.Spec.Discv5.UdpPort ≠ 0 then
                ["--discv5-udp-port=" ++ toString node.Spec.Discv5.UdpPort] else [])
          ++ node.Spec.Protocols.map (fun p => "--" ++ p ++ "=true")] := by
  refine ⟨_, podFromNode_of_static_empty r env s node hstatic, ?_⟩
  rw [← filterMap_protocolFlag_of_known _ (fun p hp => hprot.subset hp),
    ← commandBeforeStatic_eq]
  rfl

/-- The end-to-end example of the specification: the Node `n1` gets the nine
arguments listed there. -/
theorem podFromNode_args_of_ordered_protocols_witness :
    ∃ pod, podFromNode storeClient clusterEnv (storeOf n1) n1 = (.ok (some pod), []) ∧
      pod.args =
        [["--rpc=true", "--rpc-address=0.0.0.0", "--dns4-domain-name=n1",
          "--metrics-server=True", "--metrics-server-address=0.0.0.0",
          "--discv5-discovery=true", "--discv5-udp-port=9000", "--relay=true",
          "--lightpush=true"]] := by
  obtain ⟨pod, h1, h2⟩ :=
    podFromNode_args_of_ordered_protocols storeClient clusterEnv (storeOf n1) n1 rfl
      (by decide)
  exact ⟨pod, h1, h2.trans (by decide)⟩

/-- Claim C7 fails as stated: `metricsNode` has discovery off and no protocol
tag, and its argument list has five elements, the two metrics flags after the
three of the claim. -/
theorem podFromNode_metrics_without_discovery :
    metricsNode.Spec.Discv5.Discovery = false ∧ metricsNode.Spec.Protocols = [] ∧
    ∃ pod, podFromNode storeClient clusterEnv (storeOf metricsNode) metricsNode
        = (.ok (some pod), []) ∧
      pod.args = [["--rpc=true", "--rpc-address=0.0.0.0", "--dns4-domain-name=m1",
        "--metrics-server=True", "--metrics-server-address=0.0.0.0"]] ∧
      pod.args ≠ [["--rpc=true", "--rpc-address=0.0.0.0", "--dns4-domain-name=m1"]] :=
  ⟨rfl, rfl, _, rfl, by decide, by decide⟩

/-- Claim C7, amended: for every Node with `Metrics`, `Discv5.Discovery` and
`Discv5.EnrAutoUpdate` false, an empty `Discv5.BootstrapNode`, a zero
`Discv5.UdpPort`, an empty `Protocols` list and an empty `StaticNode`, the
argument list returned by `podFromNode` is exactly the two rpc flags followed
by the domain-name flag carrying the Node name. -/
theorem podFromNode_args_all_off {σ : Type} (r : Client σ) (env : Env) (s : σ) (node : Node)
    (hmetrics : node.Spec.Metrics = false)
    (hdisc : node.Spec.Discv5.Discovery = false)
    (henr : node.Spec.Discv5.EnrAutoUpdate = false)
    (hboot : node.Spec.Discv5.BootstrapNode = "")
    (hudp : node.Spec.Discv5.UdpPort = 0)
    (hprot : node.Spec.Protocols = [])
    (hstatic : node.Spec.StaticNode = "") :
    ∃ pod, podFromNode r env s node = (.ok (some pod), []) ∧
      pod.args = [["--rpc=true", "--rpc-address=0.0.0.0", "--dns4-domain-name=" ++ node.Name]] := by
  refine ⟨_, podFromNode_of_static_empty r env s node hstatic, ?_⟩
  show [commandBeforeStatic node] = _
  rw [commandBeforeStatic_eq]
  simp [hmetrics, hdisc, henr, hboot, hudp, hprot]

/-- The amended claim C7 at `bareNode`. -/
theorem podFromNode_args_all_off_witness :
    ∃ pod, podFromNode storeClient clusterEnv (storeOf bareNode) bareNode = (.ok (some pod), []) ∧
      pod.args = [["--rpc=true", "--rpc-address=0.0.0.0", "--dns4-domain-name=b1"]] := by
  obtain ⟨pod, h1, h2⟩ :=
    podFromNode_args_all_off storeClient clusterEnv (storeOf bareNode) bareNode
      rfl rfl rfl rfl rfl rfl rfl
  exact ⟨pod, h1, h2.trans (by decide)⟩

/-- Claim C5 fails as stated: `n1` lists relay before lightpush; the same Node
with the two tags swapped gets the lightpush flag before the relay flag, so
the two argument lists differ. -/
theorem podFromNode_protocols_reordered :
    ∃ pod pod',
      podFromNode storeClient clusterEnv (storeOf n1) n1 = (.ok (some pod), []) ∧
      podFromNode storeClient clusterEnv (storeOf n1) (n1.withProtocols ["lightpush", "relay"])
        = (.ok (some pod'), []) ∧
      pod.args =
        [["--rpc=true", "--rpc-address=0.0.0.0", "--dns4-domain-name=n1",
          "--metrics-server=True", "--metrics-server-address=0.0.0.0",
          "--discv5-discovery=true", "--discv5-udp-port=9000", "--relay=true",
          "--lightpush=true"]] ∧
      pod'.args =
        [["--rpc=true", "--rpc-address=0.0.0.0", "--dns4-domain-name=n1",
          "--metrics-server=True", "--metrics-server-address=0.0.0.0",
          "--discv5-discovery=true", "--discv5-udp-port=9000", "--lightpush=true",
          "--relay=true"]] ∧
      pod.args ≠ pod'.args :=
  ⟨_, _, rfl, rfl, by decide, by decide, by decide⟩

/-- Claim C5, amended: the protocol enable flags in the argument list returned
by `podFromNode` appear in the order in which their tags occur in the
`Protocols` list of the Node, one flag per occurrence of a known tag; a Node
that differs only in the order of its `Protocols` entries gets an argument
list with the same arguments before and after the protocol flags and with the
same protocol flags, in the order of its own list. -/
theorem podFromNode_protocol_flags_follow_input {σ : Type} (r : Client σ) (env : Env) (s : σ)
    (node : Node) (ps : List String) (pod : Pod)
    (hperm : ps.Perm node.Spec.Protocols)
    (hpod : (podFromNode r env s node).1 = .ok (some pod)) :
    ∃ tail pod',
      (podFromNode r env s (node.withProtocols ps)).1 = .ok (some pod') ∧
      pod.args = [commandBeforeStatic (node.withProtocols [])
        ++ node.Spec.Protocols.filterMap protocolFlag ++ tail] ∧
      pod'.args = [commandBeforeStatic (node.withProtocols [])
        ++ ps.filterMap protocolFlag ++ tail] ∧
      (ps.filterMap protocolFlag).Perm (node.Spec.Protocols.filterMap protocolFlag) := by
  obtain ⟨tail, hshape, hall⟩ := podFromNode_withProtocols r env s node pod hpod
  refine ⟨tail, _, hall ps, ?_, ?_, hperm.filterMap protocolFlag⟩
  · rw [hshape]
    show [commandBeforeStatic node ++ tail] = _
    have : node = node.withProtocols node.Spec.Protocols := rfl
    conv_lhs => rw [this, commandBeforeStatic_withProtocols]
  · show [commandBeforeStatic (node.withProtocols ps) ++ tail] = _
    rw [commandBeforeStatic_withProtocols]

/-- The amended claim C5 at `n1` and the list lightpush, relay. -/
theorem podFromNode_protocol_flags_follow_input_witness :
    ∃ tail pod',
      (podFromNode storeClient clusterEnv (storeOf n1)
        (n1.withProtocols ["lightpush", "relay"])).1 = .ok (some pod') ∧
      (podWithArgs n1 (commandBeforeStatic n1)).args = [commandBeforeStatic (n1.withProtocols [])
        ++ ["--relay=true", "--lightpush=true"] ++ tail] ∧
      pod'.args = [commandBeforeStatic (n1.withProtocols [])
        ++ ["--lightpush=true", "--relay=true"] ++ tail] ∧
      ["--lightpush=true", "--relay=true"].Perm ["--relay=true", "--lightpush=true"] :=
  podFromNode_protocol_flags_follow_input storeClient clusterEnv (storeOf n1) n1
    ["lightpush", "relay"] (podWithArgs n1 (commandBeforeStatic n1))
    (List.Perm.swap "relay" "lightpush" []) rfl

/-! ## The static peer -/

/-- Claim C6 at `literalPeerNode`, whose `StaticNode` parses as a multiaddr:
`podFromNode` makes no call, and the argument list is the one of the same Node
with an empty `StaticNode` followed by two further arguments, the unexpanded
format string and the address, not by the single static-node flag of the
claim. -/
theorem podFromNode_literal_static_peer :
    literalPeerNode.Spec.StaticNode = "/ip4/10.0.0.7/tcp/60000" ∧
    clusterEnv.NewMultiaddr literalPeerNode.Spec.StaticNode = true ∧
    ∃ pod pod0,
      podFromNode storeClient clusterEnv (storeOf literalPeerNode) literalPeerNode
        = (.ok (some pod), []) ∧
      podFromNode storeClient clusterEnv (storeOf literalPeerNode)
          (literalPeerNode.withStaticNode "") = (.ok (some pod0), []) ∧
      pod0.args = [["--rpc=true", "--rpc-address=0.0.0.0", "--dns4-domain-name=n2",
        "--relay=true"]] ∧
      pod.args = [["--rpc=true", "--rpc-address=0.0.0.0", "--dns4-domain-name=n2",
        "--relay=true", "--staticnode=%s", "/ip4/10.0.0.7/tcp/60000"]] ∧
      pod.args ≠ [["--rpc=true", "--rpc-address=0.0.0.0", "--dns4-domain-name=n2",
        "--relay=true", "--staticnode=/ip4/10.0.0.7/tcp/60000"]] :=
  ⟨rfl, by decide, _, _, rfl, rfl, by decide, by decide, by decide⟩

/-- Claim C3 at `namedPeerNode`: its `StaticNode` does not parse, the Service
of that name is fetched, and the info endpoint replies with an empty list of
listen addresses; `podFromNode` ends in an index-out-of-range panic, not in a
nil Pod, and the panic ends the pass with no create call made. -/
theorem podFromNode_empty_listen_addresses :
    namedPeerNode.Spec.StaticNode = "peer" ∧
    clusterEnv.NewMultiaddr "peer" = false ∧
    Store.getService { storeOf namedPeerNode with services := [peerService] }
        { Namespace := "default", Name := "peer" } = .ok peerService ∧
    clusterEnv.httpPost "http://10.0.0.7:8545" "application/json" "\x7b\x7d"
      = .ok { Body := .ok "\x7b\"listenAddresses\": []\x7d" } ∧
    clusterEnv.unmarshalInfoReply "\x7b\"listenAddresses\": []\x7d"
      = .ok { ENRUri := "", ListenAddresses := [] } ∧
    (podFromNode storeClient clusterEnv
        { storeOf namedPeerNode with services := [peerService] } namedPeerNode).1
      = .error (Panic.indexOutOfRange 0 0) ∧
    (Reconcile storeClient clusterEnv
        { storeOf namedPeerNode with services := [peerService] } namedPeerNode.key).ret
      = .error (Panic.indexOutOfRange 0 0) ∧
    (Reconcile storeClient clusterEnv
        { storeOf namedPeerNode with services := [peerService] }
        namedPeerNode.key).calls.filter Call.isCreate = [] :=
  ⟨rfl, by decide, rfl, rfl, rfl, rfl, rfl, by decide⟩

/-- Claim C4 at `namedPeerNode` in a store without the Service it names and
without a Pod for the Node: `podFromNode` returns nil, and the pass goes on to
call create with that nil Pod. -/
theorem Reconcile_creates_nil_pod :
    namedPeerNode.Spec.StaticNode = "peer" ∧
    clusterEnv.NewMultiaddr "peer" = false ∧
    Store.getService (storeOf namedPeerNode) { Namespace := "default", Name := "peer" }
      = .error .notFound ∧
    Store.getPod (storeOf namedPeerNode) namedPeerNode.key = .error .notFound ∧
    (podFromNode storeClient clusterEnv (storeOf namedPeerNode) namedPeerNode).1 = .ok none ∧
    (Reconcile storeClient clusterEnv (storeOf namedPeerNode) namedPeerNode.key).calls
      = [Call.getNode namedPeerNode.key, Call.getPod namedPeerNode.key,
         Call.getService { Namespace := "default", Name := "peer" }, Call.createPod none] :=
  ⟨rfl, by decide, rfl, rfl, rfl, rfl⟩

/-! ## The reconciliation pass -/

/-- Claim C8 fails as stated: with a client whose read of the Pod reports
not-found while the store holds a Pod of that identity, create answers with an
already-exists conflict and the pass returns that conflict as its error. -/
theorem Reconcile_already_exists_is_error :
    staleClient.getNode { storeOf n1 with pods := [driftedPod] } n1.key = .ok n1 ∧
    staleClient.getPod { storeOf n1 with pods := [driftedPod] } n1.key = .error .notFound ∧
    staleClient.createPod { storeOf n1 with pods := [driftedPod] }
        (some (podWithArgs n1 (commandBeforeStatic n1)))
      = (some .alreadyExists, { storeOf n1 with pods := [driftedPod] }) ∧
    Reconcile staleClient clusterEnv { storeOf n1 with pods := [driftedPod] } n1.key
      = { ret := .ok ({ Requeue := false }, some .alreadyExists),
          state := { storeOf n1 with pods := [driftedPod] },
          calls := [Call.getNode n1.key, Call.getPod n1.key,
                    Call.createPod (some (podWithArgs n1 (commandBeforeStatic n1)))] } ∧
    outcomeOf ({ Requeue := false }, some ClientErr.alreadyExists)
      = .requeueWithError .alreadyExists :=
  ⟨rfl, rfl, rfl, rfl, rfl⟩

/-- Claim C8, amended: for every pass in which the fetch of the Pod
(respectively, the Pod being found, of the Service) reports not-found and the
subsequent create returns an error, an already-exists conflict included, the
pass returns that error with no requeue flag, which the dispatcher takes as
requeue-with-error, and leaves the store as create left it. -/
theorem Reconcile_create_error_is_returned {σ : Type} (r : Client σ) (env : Env) (s s1 : σ)
    (req : NamespacedName) (node : Node) (err : ClientErr)
    (hnode : r.getNode s req = .ok node)
    (h : (r.getPod s node.key = .error .notFound ∧
            ∃ pod, (podFromNode r env s node).1 = .ok pod ∧ r.createPod s pod = (some err, s1)) ∨
         ((∃ found, r.getPod s node.key = .ok found) ∧
            r.getService s node.key = .error .notFound ∧
            r.createService s (serviceFromNode node) = (some err, s1))) :
    (Reconcile r env s req).ret = .ok ({ Requeue := false }, some err) ∧
    (Reconcile r env s req).state = s1 ∧
    outcomeOf ({ Requeue := false }, some err) = .requeueWithError err := by
  have hk2 : ({ Name := node.Name, Namespace := node.Namespace } : NamespacedName) = node.key :=
    rfl
  rcases h with ⟨hget, pod, hpod, hcreate⟩ | ⟨⟨found, hget⟩, hsrv, hcreate⟩
  · rcases hres : podFromNode r env s node with ⟨res, cs⟩
    rw [hres] at hpod
    simp only at hpod
    subst hpod
    simp only [Reconcile, hnode, hk2, hget, ClientErr.IsNotFound, if_true, hres, hcreate]
    exact ⟨trivial, trivial, rfl⟩
  · simp only [Reconcile, hnode, hk2, hget, hsrv, ClientErr.IsNotFound, if_true, hcreate]
    exact ⟨trivial, trivial, rfl⟩

/-- The amended claim C8 at the client whose reads lag behind the store. -/
theorem Reconcile_create_error_is_returned_witness :
    (Reconcile staleClient clusterEnv { storeOf n1 with pods := [driftedPod] } n1.key).ret
      = .ok ({ Requeue := false }, some .alreadyExists) ∧
    (Reconcile staleClient clusterEnv { storeOf n1 with pods := [driftedPod] } n1.key).state
      = { storeOf n1 with pods := [driftedPod] } ∧
    outcomeOf ({ Requeue := false }, some ClientErr.alreadyExists)
      = .requeueWithError .alreadyExists :=
  Reconcile_create_error_is_returned staleClient clusterEnv
    { storeOf n1 with pods := [driftedPod] } { storeOf n1 with pods := [driftedPod] }
    n1.key n1 .alreadyExists rfl
    (Or.inl ⟨rfl, some (podWithArgs n1 (commandBeforeStatic n1)), rfl, rfl⟩)

/-- Claim C2: over the explicit store, for every store state that holds at
most one Pod and at most one Service under the identity of the request, two
passes in succession leave at most one Pod and at most one Service under that
identity, and no pass asks for the creation of a Pod or Service whose identity
the store holds at the start of that pass. -/
theorem Reconcile_twice_no_duplicate (env : Env) (s : Store) (req : NamespacedName)
    (hpods : (s.podsAt req).length ≤ 1) (hsvcs : (s.servicesAt req).length ≤ 1) :
    ((Reconcile storeClient env (Reconcile storeClient env s req).state req).state.podsAt
        req).length ≤ 1 ∧
    ((Reconcile storeClient env (Reconcile storeClient env s req).state req).state.servicesAt
        req).length ≤ 1 ∧
    (∀ c ∈ (Reconcile storeClient env s req).calls, c.freshIn s) ∧
    (∀ c ∈ (Reconcile storeClient env (Reconcile storeClient env s req).state req).calls,
      c.freshIn (Reconcile storeClient env s req).state) := by
  have h1 := Reconcile_pass_no_duplicate env s req req
  have h2 := Reconcile_pass_no_duplicate env (Reconcile storeClient env s req).state req req
  exact ⟨h2.1 (h1.1 hpods), h2.2.1 (h1.2.1 hsvcs), h1.2.2, h2.2.2⟩

/-- Claim C2 at the store that holds `n1` alone. -/
theorem Reconcile_twice_no_duplicate_witness :
    ((storeOf n1).podsAt n1.key).length ≤ 1 ∧ ((storeOf n1).servicesAt n1.key).length ≤ 1 ∧
    ((Reconcile storeClient clusterEnv
        (Reconcile storeClient clusterEnv (storeOf n1) n1.key).state n1.key).state.podsAt
        n1.key).length ≤ 1 ∧
    ((Reconcile storeClient clusterEnv
        (Reconcile storeClient clusterEnv (storeOf n1) n1.key).state n1.key).state.servicesAt
        n1.key).length ≤ 1 ∧
    (∀ c ∈ (Reconcile storeClient clusterEnv (storeOf n1) n1.key).calls,
      c.freshIn (storeOf n1)) ∧
    (∀ c ∈ (Reconcile storeClient clusterEnv
        (Reconcile storeClient clusterEnv (storeOf n1) n1.key).state n1.key).calls,
      c.freshIn (Reconcile storeClient clusterEnv (storeOf n1) n1.key).state) :=
  ⟨by decide, by decide,
    Reconcile_twice_no_duplicate clusterEnv (storeOf n1) n1.key (by decide) (by decide)⟩

/-- Claim C9: over the explicit store, a pass leaves the Nodes as they are,
keeps every Pod and every Service of the store in place with its content and
only ever adds at the end, so that every get that succeeded before the pass
returns the same object after it. -/
theorem Reconcile_frame (env : Env) (s : Store) (req : NamespacedName) :
    (Reconcile storeClient env s req).state.nodes = s.nodes ∧
    s.pods <+: (Reconcile storeClient env s req).state.pods ∧
    s.services <+: (Reconcile storeClient env s req).state.services ∧
    (∀ key node, s.getNode key = .ok node →
      (Reconcile storeClient env s req).state.getNode key = .ok node) ∧
    (∀ key pod, s.getPod key = .ok pod →
      (Reconcile storeClient env s req).state.getPod key = .ok pod) ∧
    (∀ key srv, s.getService key = .ok srv →
      (Reconcile storeClient env s req).state.getService key = .ok srv) := by
  have hpodget : ∀ (l m : List Pod) (key : NamespacedName) (pod : Pod),
      Store.getPod { s with pods := l } key = .ok pod →
      Store.getPod { s with pods := l ++ m } key = .ok pod := by
    intro l m key pod h
    unfold Store.getPod at h ⊢
    simp only at h ⊢
    split at h
    · rename_i p hp
      rw [find?_append_found l m p _ hp]; exact h
    · simp at h
  have hsrvget : ∀ (l m : List Service) (key : NamespacedName) (srv : Service),
      Store.getService { s with services := l } key = .ok srv →
      Store.getService { s with services := l ++ m } key = .ok srv := by
    intro l m key srv h
    unfold Store.getService at h ⊢
    simp only at h ⊢
    split at h
    · rename_i p hp
      rw [find?_append_found l m p _ hp]; exact h
    · simp at h
  rcases Reconcile_store_effect env s req with ⟨hst, -⟩ | ⟨pod, -, -, hst, -⟩ |
      ⟨srv, -, -, hst, -⟩
  · rw [hst]
    exact ⟨rfl, List.prefix_refl _, List.prefix_refl _, fun _ _ h => h, fun _ _ h => h,
      fun _ _ h => h⟩
  · rw [hst]
    exact ⟨rfl, List.prefix_append _ _, List.prefix_refl _, fun _ _ h => h,
      fun key p h => hpodget s.pods [pod] key p h, fun _ _ h => h⟩
  · rw [hst]
    exact ⟨rfl, List.prefix_refl _, List.prefix_append _ _, fun _ _ h => h, fun _ _ h => h,
      fun key p h => hsrvget s.services [srv] key p h⟩

/-- Claim C9 at a store whose Pod for `n1` does not carry the arguments
`podFromNode` derives from `n1`: the pass leaves that Pod as it is. -/
theorem Reconcile_frame_witness :
    Store.getPod { storeOf n1 with pods := [driftedPod] } n1.key = .ok driftedPod ∧
    (podFromNode storeClient clusterEnv { storeOf n1 with pods := [driftedPod] } n1).1
      = .ok (some (podWithArgs n1 (commandBeforeStatic n1))) ∧
    podWithArgs n1 (commandBeforeStatic n1) ≠ driftedPod ∧
    (Reconcile storeClient clusterEnv { storeOf n1 with pods := [driftedPod] }
      n1.key).state.getPod n1.key = .ok driftedPod :=
  ⟨rfl, rfl, by decide,
    (Reconcile_frame clusterEnv { storeOf n1 with pods := [driftedPod] } n1.key).2.2.2.2.1
      n1.key driftedPod rfl⟩

/-- Claim C10: from a store that holds a Node with an empty `StaticNode` under
the identity of the request and neither a Pod nor a Service there, three
passes return requeue, requeue, no-op; the first issues one create call, for
the Pod `podFromNode` returns, the second one create call, for the Service
`serviceFromNode` returns, the third none; the store then holds the old
objects and these two, which are the only Pod and the only Service of that
identity; every later pass returns no-op, creates nothing and leaves the
store unchanged. -/
theorem Reconcile_converges_in_three_passes (env : Env) (s : Store) (req : NamespacedName)
    (node : Node) (hnode : s.getNode req = .ok node) (hstatic : node.Spec.StaticNode = "")
    (hpods : s.podsAt req = []) (hsvcs : s.servicesAt req = []) :
    ∃ pod s3, (podFromNode storeClient env s node).1 = .ok (some pod) ∧
      s3 = { s with pods := s.pods ++ [pod], services := s.services ++ [serviceFromNode node] } ∧
      (Reconcile storeClient env s req).ret = .ok ({ Requeue := true }, none) ∧
      (Reconcile storeClient env (passes env req 1 s) req).ret
        = .ok ({ Requeue := true }, none) ∧
      (Reconcile storeClient env (passes env req 2 s) req).ret
        = .ok ({ Requeue := false }, none) ∧
      (Reconcile storeClient env s req).calls.filter Call.isCreate
        = [Call.createPod (some pod)] ∧
      (Reconcile storeClient env (passes env req 1 s) req).calls.filter Call.isCreate
        = [Call.createService (serviceFromNode node)] ∧
      (Reconcile storeClient env (passes env req 2 s) req).calls.filter Call.isCreate = [] ∧
      passes env req 3 s = s3 ∧
      s3.podsAt req = [pod] ∧ s3.servicesAt req = [serviceFromNode node] ∧
      ∀ n, (Reconcile storeClient env (passes env req n s3) req).ret
            = .ok ({ Requeue := false }, none) ∧
          (Reconcile storeClient env (passes env req n s3) req).calls.filter Call.isCreate = [] ∧
          passes env req (n + 1) s3 = s3 := by
  have hkey : node.key = req := Store.getNode_ok_key s req node hnode
  have hres := podFromNode_of_static_empty storeClient env s node hstatic
  have hpk : (podWithArgs node (commandBeforeStatic node)).key = req := hkey
  have hsk : (serviceFromNode node).key = req := hkey
  have hfp : (fun p : Pod => decide (p.key = req)) (podWithArgs node (commandBeforeStatic node))
      = true := by simp [hpk]
  have hfs : (fun p : Service => decide (p.key = req)) (serviceFromNode node) = true := by
    simp [hsk]
  have h1 := Reconcile_store_create_pod env s req node _ [] hnode hpods hres
  have hs1 : passes env req 1 s
      = { s with pods := s.pods ++ [podWithArgs node (commandBeforeStatic node)] } := by
    simp only [passes, h1]
  have hpod1 : Store.getPod
      { s with pods := s.pods ++ [podWithArgs node (commandBeforeStatic node)] } req
      = .ok (podWithArgs node (commandBeforeStatic node)) := by
    simp only [Store.getPod, find?_append_fresh s.pods _ _ hpods hfp]
  have h2 := Reconcile_store_create_service env
    { s with pods := s.pods ++ [podWithArgs node (commandBeforeStatic node)] } req node _
    hnode hpod1 hsvcs
  have hs2 : passes env req 2 s
      = { s with pods := s.pods ++ [podWithArgs node (commandBeforeStatic node)],
                 services := s.services ++ [serviceFromNode node] } := by
    simp only [passes, h1, h2]
  have hsrv2 : Store.getService
      { s with pods := s.pods ++ [podWithArgs node (commandBeforeStatic node)],
               services := s.services ++ [serviceFromNode node] } req
      = .ok (serviceFromNode node) := by
    simp only [Store.getService, find?_append_fresh s.services _ _ hsvcs hfs]
  have h3 := Reconcile_store_settled env
    { s with pods := s.pods ++ [podWithArgs node (commandBeforeStatic node)],
             services := s.services ++ [serviceFromNode node] } req node _ _
    hnode hpod1 hsrv2
  have hs3 : passes env req 3 s
      = { s with pods := s.pods ++ [podWithArgs node (commandBeforeStatic node)],
                 services := s.services ++ [serviceFromNode node] } := by
    simp only [passes, h1, h2, h3]
  refine ⟨_, _, by rw [hres], rfl, by rw [h1], by rw [hs1, h2], by rw [hs2, h3],
    by rw [h1]; rfl, by rw [hs1, h2]; rfl, by rw [hs2, h3]; rfl, hs3, ?_, ?_, fun n => ?_⟩
  · show (s.pods ++ [_]).filter _ = _
    rw [List.filter_append]
    rw [show s.pods.filter (fun p => decide (p.key = req)) = [] from hpods]
    simp [List.filter_cons, hpk]
  · show (s.services ++ [_]).filter _ = _
    rw [List.filter_append]
    rw [show s.services.filter (fun p => decide (p.key = req)) = [] from hsvcs]
    simp [List.filter_cons, hsk]
  · have hfix := passes_settled env _ req (by rw [h3])
    rw [hfix n, hfix (n + 1), h3]
    exact ⟨rfl, rfl, rfl⟩

/-- Claim C10 at the store that holds `n1` alone. -/
theorem Reconcile_converges_in_three_passes_witness :
    ∃ pod s3, (podFromNode storeClient clusterEnv (storeOf n1) n1).1 = .ok (some pod) ∧
      s3 = { storeOf n1 with pods := (storeOf n1).pods ++ [pod],
                             services := (storeOf n1).services ++ [serviceFromNode n1] } ∧
      (Reconcile storeClient clusterEnv (storeOf n1) n1.key).ret
        = .ok ({ Requeue := true }, none) ∧
      (Reconcile storeClient clusterEnv (passes clusterEnv n1.key 1 (storeOf n1)) n1.key).ret
        = .ok ({ Requeue := true }, none) ∧
      (Reconcile storeClient clusterEnv (passes clusterEnv n1.key 2 (storeOf n1)) n1.key).ret
        = .ok ({ Requeue := false }, none) ∧
      (Reconcile storeClient clusterEnv (storeOf n1) n1.key).calls.filter Call.isCreate
        = [Call.createPod (some pod)] ∧
      (Reconcile storeClient clusterEnv (passes clusterEnv n1.key 1 (storeOf n1))
          n1.key).calls.filter Call.isCreate
        = [Call.createService (serviceFromNode n1)] ∧
      (Reconcile storeClient clusterEnv (passes clusterEnv n1.key 2 (storeOf n1))
          n1.key).calls.filter Call.isCreate = [] ∧
      passes clusterEnv n1.key 3 (storeOf n1) = s3 ∧
      s3.podsAt n1.key = [pod] ∧ s3.servicesAt n1.key = [serviceFromNode n1] ∧
      ∀ n, (Reconcile storeClient clusterEnv (passes clusterEnv n1.key n s3) n1.key).ret
            = .ok ({ Requeue := false }, none) ∧
          (Reconcile storeClient clusterEnv (passes clusterEnv n1.key n s3)
            n1.key).calls.filter Call.isCreate = [] ∧
          passes clusterEnv n1.key (n + 1) s3 = s3 :=
  Reconcile_converges_in_three_passes clusterEnv (storeOf n1) n1.key n1 rfl rfl rfl rfl

end WakuOperator
